import Mathlib

/-!
Verification of the session-gated request gateway and the OTP-based
password-reset core of the `astro_better` repository.

The Request Gateway is embedded from the Astro middleware (`onRequest` in
the middleware source file).  The One-Time-Code Issuer, Recovery State
Machine and the backing stores are delegated by the repository to the
`better-auth` library whose configuration file (`src/lib/auth/auth`) is not
part of the source tree; those components are modelled from the
specification, as marked on each definition.
-/

namespace AstroBetter

/-! ## Request Gateway (embedded from the middleware `onRequest`) -/

/-- The JS `a.startsWith(b)` on strings, as a prefix test on the
underlying character lists. -/
def strStartsWith (path pre : String) : Bool :=
  pre.toList.isPrefixOf path.toList

/-- Outcome of `auth.api.getSession` as observed by the middleware:
a session resolved to a user, no session, or the call threw
(`catch` branch), carrying the error message. -/
inductive LookupResult where
  | found (userId : Nat)
  | absent
  | storeError (msg : String)
  deriving DecidableEq, Repr

/-- Step 1 of the middleware: what ends up in `context.locals.user`.
Both the `sessionData == null` branch and the `catch` branch set the
user to `null`. -/
def resolveLocals : LookupResult → Option Nat
  | .found userId => some userId
  | .absent => none
  | .storeError _ => none

/-- The response the middleware produces: `context.redirect(target)`,
the downstream `next()` response, or a server-error response (present in
the type so that surfacing a store failure is expressible; the middleware
never constructs it). -/
inductive GatewayResponse where
  | redirect (target : String)
  | nextResponse
  | serverError
  deriving DecidableEq, Repr

/-- Full observable outcome of one middleware run: the resolved identity
placed in `context.locals`, the response, and whether `next()` (the
downstream handler) was invoked. -/
structure GatewayOutcome where
  localsUser : Option Nat
  response : GatewayResponse
  handlerExecuted : Bool
  deriving DecidableEq, Repr

/-- The sign-in entry point the middleware redirects to
(`context.redirect("/sign-in")`). -/
def signInPath : String := "/sign-in"

/-- The middleware `onRequest`, embedded step for step: resolve the
session into `locals` (errors collapse to anonymous), then if the path
starts with `/dashboard` and no user is in `locals`, redirect to
`/sign-in` without calling `next()`; otherwise call `next()`. -/
def onRequest (path : String) (lookup : LookupResult) : GatewayOutcome :=
  let user := resolveLocals lookup
  if strStartsWith path "/dashboard" && user.isNone then
    { localsUser := user, response := .redirect signInPath, handlerExecuted := false }
  else
    { localsUser := user, response := .nextResponse, handlerExecuted := true }

/-- The spec's protected-prefix set: here the single prefix `/dashboard`. -/
def protectedPrefixes : List String := ["/dashboard"]

/-- A path is protected when some configured prefix is a prefix of it. -/
def isProtected (path : String) : Bool :=
  protectedPrefixes.any (fun p => strStartsWith path p)

example : isProtected "/dashboard/settings" = true := by decide
example : isProtected "/sign-in" = false := by decide
example : (onRequest "/dashboard" .absent).response = .redirect "/sign-in" := by decide
example : (onRequest "/dashboard" (.found 7)).handlerExecuted = true := by decide

/-- C1.  The gateway's response is a pure, total function of the request
path and whether an identity was resolved: it is the redirect to the
sign-in page exactly when the path has a prefix in the configured
protected-prefix set and no identity is present, and the downstream
(`Allow`) response in every other case. -/
theorem gateway_policy_pure_total (path : String) (lk : LookupResult) :
    (onRequest path lk).response =
      if isProtected path = true ∧ (resolveLocals lk).isSome = false
      then GatewayResponse.redirect signInPath
      else GatewayResponse.nextResponse := by
  cases hu : resolveLocals lk <;>
    cases hp : strStartsWith path "/dashboard" <;>
      simp [onRequest, isProtected, protectedPrefixes, hu, hp]

/-- C2.  Whenever the gateway responds with the redirect to the sign-in
page, the downstream handler (`next()`) is never executed. -/
theorem gateway_redirect_no_handler (path : String) (lk : LookupResult)
    (h : (onRequest path lk).response = .redirect signInPath) :
    (onRequest path lk).handlerExecuted = false := by
  by_cases hc : (strStartsWith path "/dashboard" && (resolveLocals lk).isNone) = true
  · simp [onRequest, hc]
  · exfalso
    simp [onRequest, hc] at h

/-- Witness for C2 at a concrete protected request with no session. -/
theorem gateway_redirect_no_handler_witness :
    (onRequest "/dashboard" .absent).response = .redirect signInPath ∧
    (onRequest "/dashboard" .absent).handlerExecuted = false :=
  ⟨by decide, gateway_redirect_no_handler "/dashboard" .absent (by decide)⟩

/-- C7 counterexample.  When the session-store lookup fails (the
`catch` branch of the middleware), the failure is not surfaced as a
server error: on an unprotected path the middleware responds with the
downstream response and executes the handler, silently absorbing the
failure into the anonymous outcome. -/
theorem storeError_not_surfaced :
    (onRequest "/" (.storeError "timeout")).response = .nextResponse ∧
    (onRequest "/" (.storeError "timeout")).handlerExecuted = true ∧
    (onRequest "/" (.storeError "timeout")).response ≠ .serverError := by
  decide

/-- C7 amended.  A failed session-store lookup is absorbed by the
gateway: it logs and treats the caller as anonymous, so the whole
middleware outcome equals that of an absent session, and no
store-unavailable error response is produced. -/
theorem storeError_absorbed_as_anonymous (path msg : String) :
    onRequest path (.storeError msg) = onRequest path .absent := rfl

/-- C8.  The sign-in entry point is structurally outside the
protected-prefix set: no configured protected prefix is a prefix of the
redirect target, and consequently a request for the redirect target is
allowed (handler executed, no redirect) whatever the session lookup
yielded — no redirect loop can arise. -/
theorem signin_never_protected :
    protectedPrefixes.all (fun p => !strStartsWith signInPath p) = true ∧
    ∀ lk : LookupResult,
      (onRequest signInPath lk).response = .nextResponse ∧
      (onRequest signInPath lk).handlerExecuted = true := by
  refine ⟨by decide, ?_⟩
  intro lk
  have h : strStartsWith signInPath "/dashboard" = false := by decide
  constructor <;> simp [onRequest, h]

/-! ## One-Time-Code Issuer

Modelled from the spec: the issuer is implemented by the `better-auth`
email-OTP plugin configured in `src/lib/auth/auth`, a file absent from
the source tree; the definitions below follow §4.1 of the specification. -/

/-- Modelled from the spec: the `OneTimeCode` record of the data model.
The 6-digit code value is a natural number below 1000000 (leading zeros
are a rendering concern only). -/
structure OneTimeCode where
  email : String
  purpose : String
  code : Nat
  issuedAt : Nat
  expiresAt : Nat
  consumed : Bool
  attempts : Nat
  deriving DecidableEq, Repr

/-- Modelled from the spec: the attempts cap ("e.g., 5"). -/
def attemptCap : Nat := 5

/-- Modelled from the spec: the fixed TTL configuration constant
("e.g. 10 minutes"), in seconds. -/
def codeTTL : Nat := 600

/-- Modelled from the spec: the purpose tag of the reset flow. -/
def forgetPasswordPurpose : String := "forget-password"

/-- A record is active for `(email, purpose)` at time `now` when it is
for that pair, unconsumed, unexpired, and under the attempts cap. -/
def activeFor (email purpose : String) (now : Nat) (r : OneTimeCode) : Bool :=
  r.email == email && r.purpose == purpose && !r.consumed &&
    decide (now < r.expiresAt) && decide (r.attempts < attemptCap)

/-- Modelled from the spec: `validateAndConsume` as a single atomic
read-modify-write on the code store.  It updates the first record that
is active for the pair: on a value match it marks it consumed and
returns true in the same operation; on a mismatch it increments and
persists `attempts`.  With no active record it fails closed, returning
false and leaving the store unchanged. -/
def validateAndConsume (email purpose : String) (codeValue now : Nat) :
    List OneTimeCode → Bool × List OneTimeCode
  | [] => (false, [])
  | r :: rest =>
    if activeFor email purpose now r then
      if r.code == codeValue then
        (true, { r with consumed := true } :: rest)
      else
        (false, { r with attempts := r.attempts + 1 } :: rest)
    else
      let p := validateAndConsume email purpose codeValue now rest
      (p.1, r :: p.2)

/-- Modelled from the spec: before storing a fresh code, `issue` marks
consumed (without granting a match) every pre-existing unconsumed code
for the same `(email, purpose)`. -/
def invalidateActive (email purpose : String) (s : List OneTimeCode) : List OneTimeCode :=
  s.map fun r =>
    if r.email == email && r.purpose == purpose && !r.consumed then
      { r with consumed := true }
    else r

/-- Modelled from the spec: `issue` stores a fresh record with
`attempts = 0`, `consumed = false`, `expiresAt = now + TTL`, after
invalidating any prior active code for the pair.  The freshly generated
random code value is a parameter (the generator is external). -/
def issue (email purpose : String) (codeValue now : Nat)
    (s : List OneTimeCode) : List OneTimeCode :=
  { email := email, purpose := purpose, code := codeValue, issuedAt := now,
    expiresAt := now + codeTTL, consumed := false, attempts := 0 }
    :: invalidateActive email purpose s

/-- Number of active records for a pair; the spec's invariant is that it
never exceeds one. -/
def activeCount (email purpose : String) (now : Nat) (s : List OneTimeCode) : Nat :=
  s.countP (activeFor email purpose now)

/-- Total of the `attempts` counters, used to state that wrong guesses
never under-count. -/
def totalAttempts (s : List OneTimeCode) : Nat :=
  (s.map OneTimeCode.attempts).sum

/-- Modelled from the spec: `N` serialized invocations of the atomic
`validateAndConsume` with the same submitted value — the order is
arbitrary, so this covers every interleaving of `N` concurrent callers —
returning the number of successes and the final store. -/
def validateLoop (email purpose : String) (codeValue now : Nat) :
    Nat → List OneTimeCode → Nat × List OneTimeCode
  | 0, s => (0, s)
  | Nat.succ n, s =>
    let p := validateAndConsume email purpose codeValue now s
    let q := validateLoop email purpose codeValue now n p.2
    ((if p.1 then 1 else 0) + q.1, q.2)

example :
    (validateAndConsume "a@x.com" forgetPasswordPurpose 123456 5
      (issue "a@x.com" forgetPasswordPurpose 123456 0 [])).1 = true := by decide
example :
    (validateLoop "a@x.com" forgetPasswordPurpose 123456 5 3
      (issue "a@x.com" forgetPasswordPurpose 123456 0 [])).1 = 1 := by decide

theorem vc_no_active (email purpose : String) (cv now : Nat) (s : List OneTimeCode)
    (h : ∀ r ∈ s, activeFor email purpose now r = false) :
    validateAndConsume email purpose cv now s = (false, s) := by
  induction s with
  | nil => rfl
  | cons r rest ih =>
    have hr : activeFor email purpose now r = false := h r (by simp)
    have ht := ih (fun x hx => h x (by simp [hx]))
    simp [validateAndConsume, hr, ht]

theorem activeFor_eq_false_of_terminal (email purpose : String) (now : Nat) (r : OneTimeCode)
    (h : r.email = email → r.purpose = purpose →
      r.consumed = true ∨ r.expiresAt ≤ now ∨ attemptCap ≤ r.attempts) :
    activeFor email purpose now r = false := by
  by_cases he : r.email = email
  · by_cases hp : r.purpose = purpose
    · rcases h he hp with hc | hx | ha
      · simp [activeFor, hc]
      · simp [activeFor, Nat.not_lt.mpr hx]
      · simp [activeFor, Nat.not_lt.mpr ha]
    · simp [activeFor, hp]
  · simp [activeFor, he]

theorem activeFor_mono_time (email purpose : String) (now now2 : Nat) (r : OneTimeCode)
    (hle : now ≤ now2) (h : activeFor email purpose now2 r = true) :
    activeFor email purpose now r = true := by
  simp only [activeFor, Bool.and_eq_true, decide_eq_true_eq] at h ⊢
  exact ⟨⟨h.1.1, Nat.lt_of_le_of_lt hle h.1.2⟩, h.2⟩

theorem vc_true_all_inactive (email purpose : String) (cv now : Nat) (s : List OneTimeCode)
    (huniq : activeCount email purpose now s ≤ 1)
    (h : (validateAndConsume email purpose cv now s).1 = true) :
    ∀ x ∈ (validateAndConsume email purpose cv now s).2,
      activeFor email purpose now x = false := by
  induction s with
  | nil => simp [validateAndConsume] at h
  | cons r rest ih =>
    cases ha : activeFor email purpose now r with
    | true =>
      cases hc : r.code == cv with
      | true =>
        have hcons : activeCount email purpose now (r :: rest)
            = activeCount email purpose now rest + 1 := by
          simp [activeCount, List.countP_cons, ha]
        have hcnt : activeCount email purpose now rest = 0 := by omega
        have hrest : ∀ x ∈ rest, activeFor email purpose now x = false := by
          intro x hx
          have := List.countP_eq_zero.mp hcnt x hx
          revert this
          cases activeFor email purpose now x <;> simp
        intro x hx
        simp [validateAndConsume, ha, hc] at hx
        rcases hx with rfl | hx
        · simp [activeFor]
        · exact hrest x hx
      | false =>
        simp [validateAndConsume, ha, hc] at h
    | false =>
      have hcons : activeCount email purpose now (r :: rest)
          = activeCount email purpose now rest := by
        simp [activeCount, List.countP_cons, ha]
      have huniq' : activeCount email purpose now rest ≤ 1 := by omega
      have h' : (validateAndConsume email purpose cv now rest).1 = true := by
        simp [validateAndConsume, ha] at h
        exact h
      intro x hx
      simp [validateAndConsume, ha] at hx
      rcases hx with rfl | hx
      · exact ha
      · exact ih huniq' h' x hx

/-- C3.  `Consumed`, `Expired` and `Exhausted` are terminal.  First
conjunct: when every record for the pair is already consumed, past its
expiry, or at the attempts cap, `validateAndConsume` returns false —
whatever value is submitted.  Second conjunct: under the at-most-one-
active-code invariant, once `validateAndConsume` has returned true, any
later call for the pair returns false — again whatever value is
submitted — so it returns true at most once per code. -/
theorem code_terminal_states (email purpose : String) (cv cv2 now now2 : Nat)
    (s : List OneTimeCode) :
    ((∀ r ∈ s, r.email = email → r.purpose = purpose →
        r.consumed = true ∨ r.expiresAt ≤ now ∨ attemptCap ≤ r.attempts) →
      (validateAndConsume email purpose cv now s).1 = false)
    ∧ (activeCount email purpose now s ≤ 1 → now ≤ now2 →
      (validateAndConsume email purpose cv now s).1 = true →
      (validateAndConsume email purpose cv2 now2
        (validateAndConsume email purpose cv now s).2).1 = false) := by
  constructor
  · intro h
    have := vc_no_active email purpose cv now s
      (fun r hr => activeFor_eq_false_of_terminal email purpose now r (h r hr))
    simp [this]
  · intro huniq hle h
    have hall := vc_true_all_inactive email purpose cv now s huniq h
    have hall2 : ∀ x ∈ (validateAndConsume email purpose cv now s).2,
        activeFor email purpose now2 x = false := by
      intro x hx
      cases hb : activeFor email purpose now2 x with
      | false => rfl
      | true =>
        have := activeFor_mono_time email purpose now now2 x hle hb
        rw [hall x hx] at this
        exact absurd this (by simp)
    have := vc_no_active email purpose cv2 now2 _ hall2
    simp [this]

/-- Witness for C3: a consumed record rejects its own correct value, and
after a successful consume of a freshly issued code the second call with
the same correct value fails. -/
theorem code_terminal_states_witness :
    (validateAndConsume "a@x.com" forgetPasswordPurpose 123456 5
      [⟨"a@x.com", forgetPasswordPurpose, 123456, 0, 600, true, 0⟩]).1 = false
    ∧ (validateAndConsume "a@x.com" forgetPasswordPurpose 123456 7
        (validateAndConsume "a@x.com" forgetPasswordPurpose 123456 5
          (issue "a@x.com" forgetPasswordPurpose 123456 0 [])).2).1 = false :=
  ⟨(code_terminal_states "a@x.com" forgetPasswordPurpose 123456 123456 5 7
      [⟨"a@x.com", forgetPasswordPurpose, 123456, 0, 600, true, 0⟩]).1 (by decide),
   (code_terminal_states "a@x.com" forgetPasswordPurpose 123456 123456 5 7
      (issue "a@x.com" forgetPasswordPurpose 123456 0 [])).2
      (by decide) (by decide) (by decide)⟩

theorem invalidateActive_consumed (email purpose : String) (s : List OneTimeCode) :
    ∀ r ∈ invalidateActive email purpose s,
      r.email = email → r.purpose = purpose → r.consumed = true := by
  intro r hr
  simp [invalidateActive, List.mem_map] at hr
  obtain ⟨x, hx, rfl⟩ := hr
  by_cases hm : (x.email = email ∧ x.purpose = purpose) ∧ x.consumed = false
  · simp [hm]
  · simp [hm]
    intro he hp
    cases hcon : x.consumed with
    | true => rfl
    | false => exact absurd ⟨⟨he, hp⟩, hcon⟩ hm

/-- C4.  Issuing a fresh code for a pair invalidates any prior code for
that pair: afterwards `validateAndConsume` with the old value (distinct
from the newly issued one) returns false, at any time and even if the
old record was otherwise unexpired. -/
theorem issue_invalidates_prior (email purpose : String)
    (cvOld cvNew nowIssue nowTry : Nat) (s : List OneTimeCode)
    (hne : cvOld ≠ cvNew) :
    (validateAndConsume email purpose cvOld nowTry
      (issue email purpose cvNew nowIssue s)).1 = false := by
  have htail : ∀ r ∈ invalidateActive email purpose s,
      activeFor email purpose nowTry r = false := by
    intro r hr
    exact activeFor_eq_false_of_terminal email purpose nowTry r
      (fun he hp => Or.inl (invalidateActive_consumed email purpose s r hr he hp))
  have htl := vc_no_active email purpose cvOld nowTry (invalidateActive email purpose s) htail
  simp only [issue, validateAndConsume]
  split
  · simp [Ne.symm hne]
  · simp [htl]

/-- Witness for C4: after re-issuing, the first (still unexpired) code is
rejected. -/
theorem issue_invalidates_prior_witness :
    (111111 : Nat) ≠ 222222 ∧
    (validateAndConsume "a@x.com" forgetPasswordPurpose 111111 10
      (issue "a@x.com" forgetPasswordPurpose 222222 5
        (issue "a@x.com" forgetPasswordPurpose 111111 0 []))).1 = false :=
  ⟨by decide,
   issue_invalidates_prior "a@x.com" forgetPasswordPurpose 111111 222222 5 10
     (issue "a@x.com" forgetPasswordPurpose 111111 0 []) (by decide)⟩

theorem totalAttempts_cons (r : OneTimeCode) (l : List OneTimeCode) :
    totalAttempts (r :: l) = r.attempts + totalAttempts l := by
  simp [totalAttempts]

theorem vc_first_success (email purpose : String) (cv now : Nat) (s : List OneTimeCode)
    (huniq : activeCount email purpose now s ≤ 1)
    (hmatch : ∃ r ∈ s, activeFor email purpose now r = true ∧ r.code = cv) :
    (validateAndConsume email purpose cv now s).1 = true := by
  induction s with
  | nil => simp at hmatch
  | cons r rest ih =>
    obtain ⟨r0, hr0mem, hr0act, hr0code⟩ := hmatch
    cases ha : activeFor email purpose now r with
    | true =>
      rcases List.mem_cons.mp hr0mem with rfl | hr0rest
      · simp [validateAndConsume, ha, hr0code]
      · exfalso
        have hpos : 0 < activeCount email purpose now rest :=
          List.countP_pos_iff.mpr ⟨r0, hr0rest, hr0act⟩
        have hcons : activeCount email purpose now (r :: rest)
            = activeCount email purpose now rest + 1 := by
          simp [activeCount, List.countP_cons, ha]
        omega
    | false =>
      have hr0rest : r0 ∈ rest := by
        rcases List.mem_cons.mp hr0mem with rfl | h
        · rw [ha] at hr0act
          exact absurd hr0act (by simp)
        · exact h
      have hcons : activeCount email purpose now (r :: rest)
          = activeCount email purpose now rest := by
        simp [activeCount, List.countP_cons, ha]
      have ih' := ih (by omega) ⟨r0, hr0rest, hr0act, hr0code⟩
      simp [validateAndConsume, ha, ih']

theorem validateLoop_no_active (email purpose : String) (cv now : Nat) (n : Nat)
    (s : List OneTimeCode) (h : ∀ r ∈ s, activeFor email purpose now r = false) :
    validateLoop email purpose cv now n s = (0, s) := by
  induction n with
  | zero => rfl
  | succ m ih =>
    have hvc := vc_no_active email purpose cv now s h
    simp [validateLoop, hvc, ih]

theorem vc_wrong_guess (email purpose : String) (cv now : Nat) (s : List OneTimeCode)
    (hex : ∃ r ∈ s, activeFor email purpose now r = true)
    (hnomatch : ∀ r ∈ s, activeFor email purpose now r = true → r.code ≠ cv) :
    (validateAndConsume email purpose cv now s).1 = false ∧
    totalAttempts (validateAndConsume email purpose cv now s).2 = totalAttempts s + 1 := by
  induction s with
  | nil => simp at hex
  | cons r rest ih =>
    cases ha : activeFor email purpose now r with
    | true =>
      have hcode : r.code ≠ cv := hnomatch r (by simp) ha
      have hbe : (r.code == cv) = false := by simp [hcode]
      refine ⟨by simp [validateAndConsume, ha, hbe], ?_⟩
      simp [validateAndConsume, ha, hbe, totalAttempts_cons]
      omega
    | false =>
      obtain ⟨r0, hr0, hact⟩ := hex
      have hr0rest : r0 ∈ rest := by
        rcases List.mem_cons.mp hr0 with rfl | h
        · rw [ha] at hact
          exact absurd hact (by simp)
        · exact h
      have ih' := ih ⟨r0, hr0rest, hact⟩
        (fun x hx hhx => hnomatch x (by simp [hx]) hhx)
      refine ⟨by simp [validateAndConsume, ha, ih'.1], ?_⟩
      simp [validateAndConsume, ha, totalAttempts_cons, ih'.2]
      omega

/-- C9.  Atomicity makes any interleaving of concurrent calls a
serialization.  First conjunct: among `N ≥ 1` serialized
`validateAndConsume` calls submitting the same valid code of the unique
active record, exactly one succeeds (so the other `N − 1` fail).  Second
conjunct: a wrong-guess call fails and adds exactly one to the persisted
attempts counters, so concurrent wrong guesses never under-count
`attempts`. -/
theorem concurrent_commits_exactly_one (email purpose : String) (cv now : Nat)
    (n : Nat) (s : List OneTimeCode) :
    (1 ≤ n → activeCount email purpose now s ≤ 1 →
      (∃ r ∈ s, activeFor email purpose now r = true ∧ r.code = cv) →
      (validateLoop email purpose cv now n s).1 = 1)
    ∧ ((∃ r ∈ s, activeFor email purpose now r = true) →
      (∀ r ∈ s, activeFor email purpose now r = true → r.code ≠ cv) →
      (validateAndConsume email purpose cv now s).1 = false ∧
      totalAttempts (validateAndConsume email purpose cv now s).2
        = totalAttempts s + 1) := by
  constructor
  · intro hn huniq hmatch
    obtain ⟨m, rfl⟩ : ∃ m, n = m + 1 := ⟨n - 1, by omega⟩
    have h1 := vc_first_success email purpose cv now s huniq hmatch
    have hall := vc_true_all_inactive email purpose cv now s huniq h1
    have hloop := validateLoop_no_active email purpose cv now m _ hall
    simp [validateLoop, h1, hloop]
  · intro hex hnomatch
    exact vc_wrong_guess email purpose cv now s hex hnomatch

/-- Witness for C9: three serialized commits of the freshly issued code
succeed exactly once, and one wrong guess adds one attempt. -/
theorem concurrent_commits_exactly_one_witness :
    (validateLoop "a@x.com" forgetPasswordPurpose 123456 3 3
      (issue "a@x.com" forgetPasswordPurpose 123456 0 [])).1 = 1
    ∧ ((validateAndConsume "a@x.com" forgetPasswordPurpose 999999 3
          (issue "a@x.com" forgetPasswordPurpose 123456 0 [])).1 = false ∧
        totalAttempts (validateAndConsume "a@x.com" forgetPasswordPurpose 999999 3
          (issue "a@x.com" forgetPasswordPurpose 123456 0 [])).2
          = totalAttempts (issue "a@x.com" forgetPasswordPurpose 123456 0 []) + 1) :=
  ⟨(concurrent_commits_exactly_one "a@x.com" forgetPasswordPurpose 123456 3 3
      (issue "a@x.com" forgetPasswordPurpose 123456 0 [])).1
      (by decide) (by decide) (by decide),
   (concurrent_commits_exactly_one "a@x.com" forgetPasswordPurpose 999999 3 3
      (issue "a@x.com" forgetPasswordPurpose 123456 0 [])).2
      (by decide) (by decide)⟩

/-! ## Credential Store, Session Store and the Recovery State Machine

Modelled from the spec: these stores and the two recovery transitions are
provided by the `better-auth` configuration (`src/lib/auth/auth`), absent
from the source tree; the definitions follow §§3, 4.2 and 6 of the
specification. -/

/-- Modelled from the spec: the `User` record of the Credential Store. -/
structure User where
  id : Nat
  email : String
  name : String
  passwordHash : String
  emailVerified : Bool
  deriving DecidableEq, Repr

/-- Modelled from the spec: the `Session` record of the Session Store. -/
structure Session where
  token : String
  userId : Nat
  createdAt : Nat
  expiresAt : Nat
  rememberMe : Bool
  deriving DecidableEq, Repr

/-- Modelled from the spec: the shared mutable state — user records,
session records, one-time-code records. -/
structure SystemState where
  users : List User
  sessions : List Session
  codes : List OneTimeCode
  deriving DecidableEq, Repr

/-- Modelled from the spec: `findByEmail(email) -> User|absent`. -/
def findByEmail (email : String) (users : List User) : Option User :=
  users.find? (fun u => u.email == email)

/-- Modelled from the spec: `updatePassword(userId, newHash)`. -/
def updatePassword (userId : Nat) (newHash : String) (users : List User) : List User :=
  users.map (fun u => if u.id == userId then { u with passwordHash := newHash } else u)

/-- Modelled from the spec: `invalidateAll(userId)` — after it, no
session of that user remains in the store. -/
def invalidateAll (userId : Nat) (sessions : List Session) : List Session :=
  sessions.filter (fun s => s.userId != userId)

/-- Modelled from the spec: `lookup(token) -> Session|absent`. -/
def sessionLookup (token : String) (st : SystemState) : Option Session :=
  st.sessions.find? (fun s => s.token == token)

/-- Modelled from the spec: an abstract stand-in for the excluded hashing
primitive; only that the stored hash is the hash of the new password is
ever used. -/
def hashPassword (p : String) : String := "hashed:" ++ p

/-- Outcome of `commitReset` per §7: success, a field-level validation
error, or the deliberately undifferentiated `InvalidOrExpiredCode`. -/
inductive ResetResult where
  | ok
  | validationError
  | invalidOrExpiredCode
  deriving DecidableEq, Repr

/-- Modelled from the spec: `commitReset(email, code, newPassword)` —
check the minimum-strength policy (length ≥ 8), call the atomic
`validateAndConsume`, and on true write the hashed credential and
invalidate every session of the user; the success result and the
committed state are produced together. -/
def commitReset (email : String) (cv : Nat) (newPassword : String) (now : Nat)
    (st : SystemState) : ResetResult × SystemState :=
  if newPassword.length < 8 then (.validationError, st)
  else if (validateAndConsume email forgetPasswordPurpose cv now st.codes).1 then
    match findByEmail email st.users with
    | some u =>
      (.ok,
        { users := updatePassword u.id (hashPassword newPassword) st.users,
          sessions := invalidateAll u.id st.sessions,
          codes := (validateAndConsume email forgetPasswordPurpose cv now st.codes).2 })
    | none =>
      (.invalidOrExpiredCode,
        { st with codes := (validateAndConsume email forgetPasswordPurpose cv now st.codes).2 })
  else
    (.invalidOrExpiredCode,
      { st with codes := (validateAndConsume email forgetPasswordPurpose cv now st.codes).2 })

/-- Modelled from the spec: the uniform HTTP-shaped response of the
reset-request endpoint. -/
structure HttpResponse where
  status : Nat
  body : String
  deriving DecidableEq, Repr

/-- Modelled from the spec: the uniform `202` "check your email"
response of `POST /auth/otp/send`. -/
def checkYourEmailResponse : HttpResponse :=
  { status := 202, body := "check your email" }

/-- Modelled from the spec: `requestReset(email)` — look the account up;
issue a code only when it exists; always answer with the same uniform
success response. -/
def requestReset (email : String) (cv now : Nat) (st : SystemState) :
    HttpResponse × SystemState :=
  match findByEmail email st.users with
  | some _ =>
    (checkYourEmailResponse,
      { st with codes := issue email forgetPasswordPurpose cv now st.codes })
  | none => (checkYourEmailResponse, st)

theorem findByEmail_updatePassword (email : String) (uid : Nat) (h : String)
    (users : List User) :
    findByEmail email (updatePassword uid h users)
      = (findByEmail email users).map
          (fun u => if u.id == uid then { u with passwordHash := h } else u) := by
  unfold findByEmail updatePassword
  rw [List.find?_map]
  congr 1
  congr 1
  funext u
  by_cases hid : (u.id == uid) = true <;> simp [Function.comp, hid]

theorem invalidateAll_lookup_none (tok : String) (uid : Nat) (sessions : List Session)
    (h : ∀ s ∈ sessions, s.token = tok → s.userId = uid) :
    (invalidateAll uid sessions).find? (fun s => s.token == tok) = none := by
  rw [List.find?_eq_none]
  intro x hx hbe
  have hmem := List.mem_filter.mp hx
  have htok : x.token = tok := by simpa using hbe
  have hxu := h x hmem.1 htok
  have hne := hmem.2
  simp [hxu] at hne

/-- C5.  A successful `commitReset` writes the new credential hash and
invalidates every session of the user: a token that only ever resolved
to that user resolves to absent afterwards, and the user record found by
the email now carries the hash of the new password.  The success result
is produced together with the committed state, never before it. -/
theorem commitReset_secures (email : String) (cv : Nat) (pw : String) (now : Nat)
    (st : SystemState) (tok : String) (u : User)
    (hu : findByEmail email st.users = some u)
    (hres : (commitReset email cv pw now st).1 = .ok)
    (htok : ∀ s ∈ st.sessions, s.token = tok → s.userId = u.id) :
    sessionLookup tok (commitReset email cv pw now st).2 = none ∧
    ∃ u2, findByEmail email (commitReset email cv pw now st).2.users = some u2 ∧
      u2.id = u.id ∧ u2.passwordHash = hashPassword pw := by
  by_cases hlen : pw.length < 8
  · exfalso
    simp [commitReset, hlen] at hres
  · by_cases hvc : (validateAndConsume email forgetPasswordPurpose cv now st.codes).1 = true
    · have hcr : commitReset email cv pw now st =
          (.ok,
            { users := updatePassword u.id (hashPassword pw) st.users,
              sessions := invalidateAll u.id st.sessions,
              codes := (validateAndConsume email forgetPasswordPurpose cv now st.codes).2 }) := by
        simp [commitReset, hlen, hvc, hu]
      rw [hcr]
      constructor
      · exact invalidateAll_lookup_none tok u.id st.sessions htok
      · refine ⟨{ u with passwordHash := hashPassword pw }, ?_, rfl, rfl⟩
        show findByEmail email (updatePassword u.id (hashPassword pw) st.users) = _
        rw [findByEmail_updatePassword, hu]
        simp
    · exfalso
      rw [Bool.not_eq_true] at hvc
      simp [commitReset, hlen, hvc] at hres

/-- Witness for C5 at the spec's §8 scenario: user `a@x.com` with a live
session commits the issued code `123456` with password `longenough1`. -/
theorem commitReset_secures_witness :
    sessionLookup "tok1"
      (commitReset "a@x.com" 123456 "longenough1" 5
        ⟨[⟨1, "a@x.com", "Ann", "oldhash", true⟩], [⟨"tok1", 1, 0, 1000, false⟩],
          issue "a@x.com" forgetPasswordPurpose 123456 0 []⟩).2 = none ∧
    ∃ u2, findByEmail "a@x.com"
        (commitReset "a@x.com" 123456 "longenough1" 5
          ⟨[⟨1, "a@x.com", "Ann", "oldhash", true⟩], [⟨"tok1", 1, 0, 1000, false⟩],
            issue "a@x.com" forgetPasswordPurpose 123456 0 []⟩).2.users = some u2 ∧
      u2.id = (⟨1, "a@x.com", "Ann", "oldhash", true⟩ : User).id ∧
      u2.passwordHash = hashPassword "longenough1" :=
  commitReset_secures "a@x.com" 123456 "longenough1" 5
    ⟨[⟨1, "a@x.com", "Ann", "oldhash", true⟩], [⟨"tok1", 1, 0, 1000, false⟩],
      issue "a@x.com" forgetPasswordPurpose 123456 0 []⟩
    "tok1" ⟨1, "a@x.com", "Ann", "oldhash", true⟩
    (by decide) (by decide) (by decide)

/-- C6.  Anti-enumeration of the reset request: the response is the same
whatever the account store holds — in particular for two states that
differ only in whether the email has an account — and when the account
is absent the state is unchanged, so no code is issued. -/
theorem requestReset_anti_enumeration (email : String) (cv now : Nat)
    (st st2 : SystemState) :
    ((requestReset email cv now st).1 = (requestReset email cv now st2).1)
    ∧ (findByEmail email st.users = none → (requestReset email cv now st).2 = st) := by
  constructor
  · unfold requestReset
    cases findByEmail email st.users <;> cases findByEmail email st2.users <;> rfl
  · intro h
    unfold requestReset
    rw [h]

/-- Witness for C6: the response for an absent account equals the one for
a present account, and the absent-account run leaves the state as it
was. -/
theorem requestReset_anti_enumeration_witness :
    ((requestReset "a@x.com" 123456 0 ⟨[], [], []⟩).1
      = (requestReset "a@x.com" 123456 0
          ⟨[⟨1, "a@x.com", "Ann", "oldhash", true⟩], [], []⟩).1)
    ∧ (requestReset "a@x.com" 123456 0 ⟨[], [], []⟩).2 = ⟨[], [], []⟩ :=
  ⟨(requestReset_anti_enumeration "a@x.com" 123456 0 ⟨[], [], []⟩
      ⟨[⟨1, "a@x.com", "Ann", "oldhash", true⟩], [], []⟩).1,
   (requestReset_anti_enumeration "a@x.com" 123456 0 ⟨[], [], []⟩ ⟨[], [], []⟩).2
     (by decide)⟩

/-! ## Sign-up endpoint (embedded from `src/pages/api/actions/sign-up.ts`) -/

/-- The request body fields of the sign-up POST handler; `none` models a
field absent from the JSON (`undefined`). -/
structure SignUpBody where
  name : Option String
  email : Option String
  password : Option String
  confirmPassword : Option String
  terms : Option Bool
  deriving DecidableEq, Repr

/-- The `ValidationErrors` object of the handler. -/
structure SignUpErrors where
  name : Option String
  email : Option String
  password : Option String
  confirmPassword : Option String
  terms : Option String
  deriving DecidableEq, Repr

/-- `name.trim().length === 0`: every character is whitespace. -/
def isBlank (s : String) : Bool :=
  s.toList.all (fun c => c.isWhitespace)

/-- Interior dot of the handler's email regular expression: the domain
contains a `.` that is neither its first nor its last character. -/
def hasInteriorDot (domain : List Char) : Bool :=
  match domain with
  | [] => false
  | _ :: rest => rest.dropLast.contains '.'

/-- The handler's email test, the regular expression
`^[^\s@]+@[^\s@]+\.[^\s@]+$` read off on the character list: a nonempty
local part without whitespace (it contains no `@` by construction), one
`@`, and a nonempty whitespace- and `@`-free domain with an interior
dot. -/
def emailFormatOk (s : String) : Bool :=
  let cs := s.toList
  let localPart := cs.takeWhile (fun c => c != '@')
  match cs.dropWhile (fun c => c != '@') with
  | '@' :: domain =>
    !localPart.isEmpty && localPart.all (fun c => !c.isWhitespace) &&
      !domain.isEmpty &&
      domain.all (fun c => !c.isWhitespace && c != '@') &&
      hasInteriorDot domain
  | _ => false

example : emailFormatOk "a@x.com" = true := by decide
example : emailFormatOk "a@x" = false := by decide
example : emailFormatOk "a x@y.com" = false := by decide
example : emailFormatOk "ax.com" = false := by decide

/-- Step 2 of the handler: server-side validation, field for field.  The
`password !== confirmPassword` and `terms !== true` comparisons are on
the raw (possibly absent) values, as in the source. -/
def validateSignUp (b : SignUpBody) : SignUpErrors :=
  { name :=
      match b.name with
      | none => some "Пожалуйста, введите ваше имя."
      | some n => if isBlank n then some "Пожалуйста, введите ваше имя." else none,
    email :=
      match b.email with
      | none => some "Неверный формат email."
      | some e => if emailFormatOk e then none else some "Неверный формат email.",
    password :=
      match b.password with
      | none => some "Пароль должен быть не менее 8 символов."
      | some p =>
        if p.length < 8 then some "Пароль должен быть не менее 8 символов." else none,
    confirmPassword :=
      if b.password == b.confirmPassword then none else some "Пароли не совпадают.",
    terms :=
      if b.terms == some true then none
      else some "Вы должны принять условия использования." }

/-- `Object.keys(errors).length > 0`. -/
def hasErrors (e : SignUpErrors) : Bool :=
  e.name.isSome || e.email.isSome || e.password.isSome ||
    e.confirmPassword.isSome || e.terms.isSome

/-- Outcome of the external `auth.api.signUpEmail` call: success, the
`APIError` with status `UNPROCESSABLE_ENTITY` (email already
registered), another `APIError`, or a non-`APIError` exception. -/
inductive SignUpApiOutcome where
  | success
  | userExists
  | otherApiError
  | unexpectedError
  deriving DecidableEq, Repr

/-- Body of the handler's `Response`. -/
inductive SignUpRespBody where
  | message (m : String)
  | fieldErrors (e : SignUpErrors)
  | success
  deriving DecidableEq, Repr

/-- The handler's `Response`: status code and JSON body. -/
structure SignUpResponse where
  status : Nat
  body : SignUpRespBody
  deriving DecidableEq, Repr

/-- The field-level 409 body of the user-exists branch. -/
def userExistsErrors : SignUpErrors :=
  { name := none, email := some "Пользователь с таким email уже существует.",
    password := none, confirmPassword := none, terms := none }

/-- The sign-up `POST` handler: a `none` body models a JSON parse
failure; otherwise validate, then branch on the outcome of the external
sign-up call (only consulted when validation passed, as in the
source). -/
def signUpPOST (body : Option SignUpBody) (api : SignUpApiOutcome) : SignUpResponse :=
  match body with
  | none => { status := 400, body := .message "Неверный формат запроса (ожидается JSON)." }
  | some b =>
    if hasErrors (validateSignUp b) then
      { status := 400, body := .fieldErrors (validateSignUp b) }
    else
      match api with
      | .success => { status := 200, body := .success }
      | .userExists => { status := 409, body := .fieldErrors userExistsErrors }
      | .otherApiError =>
        { status := 500, body := .message "Произошла ошибка при регистрации. Попробуйте позже." }
      | .unexpectedError =>
        { status := 500, body := .message "Произошла внутренняя ошибка сервера." }

/-- C10.  For any body that passes validation, the sign-up handler
observably branches on account existence: an already-registered email
yields `409` with the field-level "user with this email already exists"
error, a fresh email yields `200`, and the two responses differ. -/
theorem signup_reveals_account_existence (b : SignUpBody)
    (h : hasErrors (validateSignUp b) = false) :
    (signUpPOST (some b) .userExists).status = 409 ∧
    (signUpPOST (some b) .userExists).body = .fieldErrors userExistsErrors ∧
    (signUpPOST (some b) .success).status = 200 ∧
    signUpPOST (some b) .userExists ≠ signUpPOST (some b) .success := by
  refine ⟨by simp [signUpPOST, h], by simp [signUpPOST, h], by simp [signUpPOST, h], ?_⟩
  simp [signUpPOST, h]

/-- Witness for C10 at a concrete valid body. -/
theorem signup_reveals_account_existence_witness :
    hasErrors (validateSignUp
      ⟨some "Ann", some "a@x.com", some "longenough1", some "longenough1", some true⟩) = false ∧
    (signUpPOST (some
      ⟨some "Ann", some "a@x.com", some "longenough1", some "longenough1", some true⟩)
      .userExists).status = 409 :=
  ⟨by decide,
   (signup_reveals_account_existence
      ⟨some "Ann", some "a@x.com", some "longenough1", some "longenough1", some true⟩
      (by decide)).1⟩

end AstroBetter
